import Mathlib

/-!
Shallow embedding of the hunter-io-python-client repository
(`hunter_client/client.py`, `hunter_client/exceptions.py`,
`hunter_client/models.py`) and proofs about it.

Modelling conventions:
* JSON values are the inductive `Json`; a response body that fails to parse
  as JSON is `Except.error desc` where `desc` is the parse-fault text.
* Python exceptions that the code can raise or propagate are the inductive
  `PyException`.  The class hierarchy of `exceptions.py`
  (`HunterAuthError <: HunterAPIError`, `HunterRateLimitError <: HunterAPIError`)
  is modelled by the single constructor `hunterAPIError` with a `HunterKind`
  tag plus the subclass test `PyException.isHunterAPIError`.
  Built-in Python exceptions that can escape (`ValueError`, `KeyError`,
  `AttributeError`, `TypeError`) get their own constructors; pydantic's
  `ValidationError` (a `ValueError` subclass) is `pydanticValidationError`.
* Python truthiness (`if not domain`) is `pyTruthy` / `truthyS`.
* The query-parameter dict is an insertion-ordered association list
  `List (String × ParamValue)`; all inserted keys are distinct.
* The HTTP transport (`requests.Session.request`) is a parameter
  `net : Transport`; each operation returns its result paired with the
  number of requests that reached the transport (0 or 1).
-/

/-- A JSON value, as produced by Python's response.json(). -/
inductive Json where
  | null : Json
  | bool : Bool → Json
  | num : Int → Json
  | str : String → Json
  | arr : List Json → Json
  | obj : List (String × Json) → Json

/-- Kind tag distinguishing the three exception classes of exceptions.py. -/
inductive HunterKind where
  | generic
  | auth
  | rateLimit
deriving DecidableEq

/-- Python exceptions the embedded code can raise or let escape. -/
inductive PyException where
  | valueError (message : String)
  | pydanticValidationError (message : String)
  | keyError (message : String)
  | attributeError (message : String)
  | typeError (message : String)
  | hunterAPIError (kind : HunterKind) (message : Json) (status_code : Nat)

/-- Subclass test: except HunterAPIError catches all three Hunter kinds
(HunterAuthError and HunterRateLimitError subclass HunterAPIError). -/
def PyException.isHunterAPIError : PyException → Bool
  | .hunterAPIError _ _ _ => true
  | _ => false

/-- Subclass test: except ValueError catches ValueError and pydantic's
ValidationError (which subclasses ValueError), nothing else here. -/
def PyException.isValueError : PyException → Bool
  | .valueError _ => true
  | .pydanticValidationError _ => true
  | _ => false

/-- The status_code attribute of a raised exception, when it has one. -/
def PyException.statusCode? : PyException → Option Nat
  | .hunterAPIError _ _ c => some c
  | _ => none

/-- HunterAPIError.__init__(message, status_code=0), shared by the two
subclasses: omitting the second argument (none) stores status_code 0. -/
def HunterAPIError.new (kind : HunterKind) (message : Json)
    (status_code : Option Nat) : PyException :=
  .hunterAPIError kind message (status_code.getD 0)

/-- needle occurs as a contiguous substring of hay. -/
def strContains (hay needle : String) : Prop :=
  ∃ p q, hay = p ++ needle ++ q

/-- Python truthiness of a JSON value. -/
def pyTruthy : Json → Bool
  | .null => false
  | .bool b => b
  | .num n => n != 0
  | .str s => !s.isEmpty
  | .arr xs => !xs.isEmpty
  | .obj kvs => !kvs.isEmpty

/-- isinstance(v, list) on a JSON value. -/
def isJsonList : Json → Bool
  | .arr _ => true
  | _ => false

/-- Python equality of a JSON value with a string literal (only a str can
equal a str). -/
def pyEqStrLit (v : Json) (s : String) : Bool :=
  match v with
  | .str t => t == s
  | _ => false

/-- Does the character list n occur at the head of h. -/
def charsStartWith : List Char → List Char → Bool
  | [], _ => true
  | _ :: _, [] => false
  | a :: as, b :: bs => a == b && charsStartWith as bs

/-- Does the character list n occur contiguously anywhere in h. -/
def charsOccur (n : List Char) : List Char → Bool
  | [] => n.isEmpty
  | c :: t => charsStartWith n (c :: t) || charsOccur n t

/-- Python k in v for a JSON value v: key membership for a dict,
substring test for a str, element membership for a list; TypeError for
non-container values. -/
def pyContainsKey (v : Json) (k : String) : Except PyException Bool :=
  match v with
  | .obj kvs => .ok (List.lookup k kvs).isSome
  | .str s => .ok (charsOccur k.toList s.toList)
  | .arr xs => .ok (xs.any (fun x => pyEqStrLit x k))
  | _ => .error (.typeError "argument is not iterable")

/-- Python v[k] with a string key: dict lookup (KeyError when absent),
TypeError on any non-dict value. -/
def pySubscript (v : Json) (k : String) : Except PyException Json :=
  match v with
  | .obj kvs =>
      match List.lookup k kvs with
      | some w => .ok w
      | none => .error (.keyError k)
  | _ => .error (.typeError "indices must be integers")

/-- An HTTP response: its status code and its body, the latter either
parsed JSON or the text of the JSON parse fault (response.json() raises
ValueError on the second). -/
structure HttpResponse where
  status_code : Nat
  body : Except String Json

/-- Outcome of one call to requests.Session.request: a response, or a
RequestException described by its text. -/
inductive NetResult where
  | success (response : HttpResponse)
  | failure (description : String)

/-- A query-parameter value: the code sends strings and ints. -/
inductive ParamValue where
  | str (s : String)
  | int (n : Int)
deriving DecidableEq

/-- The transport layer: maps (url, query parameters) to a network outcome. -/
def Transport : Type :=
  String → List (String × ParamValue) → NetResult

/-- The client object: its configured API key and timeout
(HunterClient.__init__; the session object lives in the transport
parameter, the base URL is the constant base_url). -/
structure HunterClient where
  api_key : String
  timeout : Nat

/-- HunterClient.base_url. -/
def base_url : String := "https://api.hunter.io/v2/"

/-- urljoin(base_url, endpoint) for the relative endpoints used here. -/
def requestUrl (endpoint : String) : String := base_url ++ endpoint

/-- HunterClient._extract_error_message: best-effort extraction of
errors[0].details from an error body, falling back to "API request
failed"; the try block catches only ValueError and KeyError, so
AttributeError and TypeError escape. -/
def _extract_error_message (response : HttpResponse) : Except PyException Json :=
  let errorMessage := Json.str "API request failed"
  let tryBlock : Except PyException Json :=
    match response.body with
    | .error desc => .error (.valueError desc)
    | .ok errorData =>
        match pyContainsKey errorData "errors" with
        | .error e => .error e
        | .ok false => .ok errorMessage
        | .ok true =>
            match pySubscript errorData "errors" with
            | .error e => .error e
            | .ok errors =>
                if pyTruthy errors && isJsonList errors then
                  match errors with
                  | .arr (first :: _) =>
                      match first with
                      | .obj kvs => .ok ((List.lookup "details" kvs).getD errorMessage)
                      | _ => .error (.attributeError "object has no attribute get")
                  | _ => .ok errorMessage
                else .ok errorMessage
  match tryBlock with
  | .ok msg => .ok msg
  | .error (.valueError _) => .ok errorMessage
  | .error (.keyError _) => .ok errorMessage
  | .error e => .error e

/-- HunterClient._parse_json_response: the JSON body, or HunterAPIError
wrapping the parse fault (status_code defaulted, hence 0). -/
def _parse_json_response (response : HttpResponse) : Except PyException Json :=
  match response.body with
  | .ok json => .ok json
  | .error desc =>
      .error (HunterAPIError.new .generic (.str ("Invalid JSON response: " ++ desc)) none)

/-- HunterClient._process_response: classify the HTTP response by status
code, raising HunterAuthError on 401, HunterRateLimitError on 429, a
generic HunterAPIError on other statuses at least 400, and otherwise
parsing the JSON body. -/
def _process_response (response : HttpResponse) : Except PyException Json :=
  let unauthorized_status_code := 401
  let rate_limit_status_code := 429
  let bad_request_status_code := 400
  if response.status_code == unauthorized_status_code then
    .error (HunterAPIError.new .auth (.str "Invalid API key") (some response.status_code))
  else if response.status_code == rate_limit_status_code then
    .error (HunterAPIError.new .rateLimit (.str "Rate limit exceeded") (some response.status_code))
  else if bad_request_status_code ≤ response.status_code then
    match _extract_error_message response with
    | .ok errorMessage =>
        .error (HunterAPIError.new .generic errorMessage (some response.status_code))
    | .error e => .error e
  else
    _parse_json_response response

/-- HunterClient._execute_request: one transport outcome, wrapping a
RequestException in HunterAPIError (status_code defaulted, hence 0) and
otherwise processing the response. -/
def _execute_request (result : NetResult) : Except PyException Json :=
  match result with
  | .failure desc =>
      .error (HunterAPIError.new .generic (.str ("Request failed: " ++ desc)) none)
  | .success response => _process_response response

/-- HunterClient._make_request: append api_key to the caller's parameters
and issue the single GET through the transport. -/
def _make_request (c : HunterClient) (endpoint : String)
    (request_params : List (String × ParamValue)) (net : Transport) :
    Except PyException Json :=
  _execute_request (net (requestUrl endpoint) (request_params ++ [("api_key", ParamValue.str c.api_key)]))

/-- Python truthiness of an optional-string argument: absent (None) and
the empty string are both falsy. -/
def truthyS : Option String → Bool
  | none => false
  | some s => !s.isEmpty

/-- One conditional insertion of a string parameter, as in
"if domain: request_params[key] = domain": inserted only when truthy. -/
def strParam (key : String) (v : Option String) : List (String × ParamValue) :=
  match v with
  | some s => if s.isEmpty then [] else [(key, ParamValue.str s)]
  | none => []

/-- One conditional insertion of an int parameter, as in
"if limit is not None: request_params[key] = limit": inserted whenever
present, including 0. -/
def intParam (key : String) (v : Option Int) : List (String × ParamValue) :=
  match v with
  | some n => [(key, ParamValue.int n)]
  | none => []

/-- Arguments of HunterClient.domain_search (all default to None). -/
structure DomainSearchArgs where
  domain : Option String := none
  company : Option String := none
  limit : Option Int := none
  offset : Option Int := none
  type_filter : Option String := none
  seniority : Option String := none
  department : Option String := none
  required_field : Option String := none

/-- The request_params dict built by domain_search, in insertion order. -/
def domain_search_request_params (a : DomainSearchArgs) : List (String × ParamValue) :=
  strParam "domain" a.domain ++
  strParam "company" a.company ++
  intParam "limit" a.limit ++
  intParam "offset" a.offset ++
  strParam "type" a.type_filter ++
  strParam "seniority" a.seniority ++
  strParam "department" a.department ++
  strParam "required_field" a.required_field

/-- Arguments of HunterClient.email_finder (all default to None). -/
structure EmailFinderArgs where
  domain : Option String := none
  company : Option String := none
  first_name : Option String := none
  last_name : Option String := none
  full_name : Option String := none
  max_duration : Option Int := none

/-- HunterClient._validate_email_finder_params. -/
def _validate_email_finder_params (a : EmailFinderArgs) : Except PyException Unit :=
  if !truthyS a.domain && !truthyS a.company then
    .error (.valueError "Either domain or company must be provided")
  else
    let has_first_and_last := truthyS a.first_name && truthyS a.last_name
    if !has_first_and_last && !truthyS a.full_name then
      .error (.valueError "Either first_name and last_name, or full_name must be provided")
    else
      .ok ()

/-- The request_params dict built by email_finder, in insertion order. -/
def email_finder_request_params (a : EmailFinderArgs) : List (String × ParamValue) :=
  strParam "domain" a.domain ++
  strParam "company" a.company ++
  strParam "first_name" a.first_name ++
  strParam "last_name" a.last_name ++
  strParam "full_name" a.full_name ++
  intParam "max_duration" a.max_duration

/-- The full query mapping the transport receives for domain_search:
the built params with api_key appended by _make_request. -/
def domain_search_sent (c : HunterClient) (a : DomainSearchArgs) :
    List (String × ParamValue) :=
  domain_search_request_params a ++ [("api_key", ParamValue.str c.api_key)]

/-- The full query mapping the transport receives for email_finder. -/
def email_finder_sent (c : HunterClient) (a : EmailFinderArgs) :
    List (String × ParamValue) :=
  email_finder_request_params a ++ [("api_key", ParamValue.str c.api_key)]

/-- The full query mapping the transport receives for email_verifier. -/
def email_verifier_sent (c : HunterClient) (email : String) :
    List (String × ParamValue) :=
  [("email", ParamValue.str email), ("api_key", ParamValue.str c.api_key)]

/-- Lookup of a key in a JSON object (None for absent key or non-object). -/
def jsonGet (j : Json) (k : String) : Option Json :=
  match j with
  | .obj kvs => List.lookup k kvs
  | _ => none

/-- Pydantic required str field. -/
def fieldStr (j : Json) (k : String) : Except PyException String :=
  match jsonGet j k with
  | some (.str s) => .ok s
  | _ => .error (.pydanticValidationError k)

/-- Pydantic required int field. -/
def fieldInt (j : Json) (k : String) : Except PyException Int :=
  match jsonGet j k with
  | some (.num n) => .ok n
  | _ => .error (.pydanticValidationError k)

/-- Pydantic required bool field. -/
def fieldBool (j : Json) (k : String) : Except PyException Bool :=
  match jsonGet j k with
  | some (.bool b) => .ok b
  | _ => .error (.pydanticValidationError k)

/-- Pydantic Optional[str] field with default None: absent or null gives
none. -/
def fieldOptStr (j : Json) (k : String) : Except PyException (Option String) :=
  match jsonGet j k with
  | none => .ok none
  | some .null => .ok none
  | some (.str s) => .ok (some s)
  | some _ => .error (.pydanticValidationError k)

/-- Pydantic Optional[int] field with default None. -/
def fieldOptInt (j : Json) (k : String) : Except PyException (Option Int) :=
  match jsonGet j k with
  | none => .ok none
  | some .null => .ok none
  | some (.num n) => .ok (some n)
  | some _ => .error (.pydanticValidationError k)

/-- Pydantic List[str] field with default_factory=list: absent gives []. -/
def fieldListStr (j : Json) (k : String) : Except PyException (List String) :=
  match jsonGet j k with
  | none => .ok []
  | some (.arr xs) =>
      xs.mapM (fun x =>
        match x with
        | .str s => Except.ok s
        | _ => Except.error (.pydanticValidationError k))
  | some _ => .error (.pydanticValidationError k)

/-- Pydantic list-of-submodel field with default_factory=list. -/
def fieldListWith (sub : Json → Except PyException α) (j : Json) (k : String) :
    Except PyException (List α) :=
  match jsonGet j k with
  | none => .ok []
  | some (.arr xs) => xs.mapM sub
  | some _ => .error (.pydanticValidationError k)

/-- Pydantic Optional[submodel] field with default None. -/
def fieldOptWith (sub : Json → Except PyException α) (j : Json) (k : String) :
    Except PyException (Option α) :=
  match jsonGet j k with
  | none => .ok none
  | some .null => .ok none
  | some v => (sub v).map some

/-- models.EmailSource. -/
structure EmailSource where
  domain : String
  uri : String
  extracted_on : String
  last_seen_on : String
  still_on_page : Bool

/-- Pydantic construction of an EmailSource from a JSON value. -/
def EmailSource.parse (j : Json) : Except PyException EmailSource := do
  match j with
  | .obj _ =>
      let domain ← fieldStr j "domain"
      let uri ← fieldStr j "uri"
      let extracted_on ← fieldStr j "extracted_on"
      let last_seen_on ← fieldStr j "last_seen_on"
      let still_on_page ← fieldBool j "still_on_page"
      pure ⟨domain, uri, extracted_on, last_seen_on, still_on_page⟩
  | _ => .error (.pydanticValidationError "EmailSource")

/-- models.EmailVerification. -/
structure EmailVerification where
  date : Option String := none
  status : Option String := none

/-- Pydantic construction of an EmailVerification from a JSON value. -/
def EmailVerification.parse (j : Json) : Except PyException EmailVerification := do
  match j with
  | .obj _ =>
      let date ← fieldOptStr j "date"
      let status ← fieldOptStr j "status"
      pure ⟨date, status⟩
  | _ => .error (.pydanticValidationError "EmailVerification")

/-- models.Email. -/
structure Email where
  value : String
  type : String
  confidence : Int
  sources : List EmailSource := []
  first_name : Option String := none
  last_name : Option String := none
  position : Option String := none
  seniority : Option String := none
  department : Option String := none
  linkedin : Option String := none
  twitter : Option String := none
  phone_number : Option String := none
  verification : Option EmailVerification := none

/-- Pydantic construction of an Email from a JSON value.  The confidence
field is declared int with no range constraint. -/
def Email.parse (j : Json) : Except PyException Email := do
  match j with
  | .obj _ =>
      let value ← fieldStr j "value"
      let type ← fieldStr j "type"
      let confidence ← fieldInt j "confidence"
      let sources ← fieldListWith EmailSource.parse j "sources"
      let first_name ← fieldOptStr j "first_name"
      let last_name ← fieldOptStr j "last_name"
      let position ← fieldOptStr j "position"
      let seniority ← fieldOptStr j "seniority"
      let department ← fieldOptStr j "department"
      let linkedin ← fieldOptStr j "linkedin"
      let twitter ← fieldOptStr j "twitter"
      let phone_number ← fieldOptStr j "phone_number"
      let verification ← fieldOptWith EmailVerification.parse j "verification"
      pure ⟨value, type, confidence, sources, first_name, last_name, position,
            seniority, department, linkedin, twitter, phone_number, verification⟩
  | _ => .error (.pydanticValidationError "Email")

/-- models.DomainSearchData. -/
structure DomainSearchData where
  domain : String
  disposable : Bool
  webmail : Bool
  accept_all : Bool
  pattern : Option String := none
  organization : Option String := none
  description : Option String := none
  industry : Option String := none
  twitter : Option String := none
  facebook : Option String := none
  linkedin : Option String := none
  instagram : Option String := none
  youtube : Option String := none
  technologies : List String := []
  country : Option String := none
  state : Option String := none
  city : Option String := none
  postal_code : Option String := none
  street : Option String := none
  headcount : Option String := none
  company_type : Option String := none
  emails : List Email := []
  linked_domains : List String := []

/-- Pydantic construction of a DomainSearchData from a JSON value. -/
def DomainSearchData.parse (j : Json) : Except PyException DomainSearchData := do
  match j with
  | .obj _ =>
      let domain ← fieldStr j "domain"
      let disposable ← fieldBool j "disposable"
      let webmail ← fieldBool j "webmail"
      let accept_all ← fieldBool j "accept_all"
      let pattern ← fieldOptStr j "pattern"
      let organization ← fieldOptStr j "organization"
      let description ← fieldOptStr j "description"
      let industry ← fieldOptStr j "industry"
      let twitter ← fieldOptStr j "twitter"
      let facebook ← fieldOptStr j "facebook"
      let linkedin ← fieldOptStr j "linkedin"
      let instagram ← fieldOptStr j "instagram"
      let youtube ← fieldOptStr j "youtube"
      let technologies ← fieldListStr j "technologies"
      let country ← fieldOptStr j "country"
      let state ← fieldOptStr j "state"
      let city ← fieldOptStr j "city"
      let postal_code ← fieldOptStr j "postal_code"
      let street ← fieldOptStr j "street"
      let headcount ← fieldOptStr j "headcount"
      let company_type ← fieldOptStr j "company_type"
      let emails ← fieldListWith Email.parse j "emails"
      let linked_domains ← fieldListStr j "linked_domains"
      pure ⟨domain, disposable, webmail, accept_all, pattern, organization,
            description, industry, twitter, facebook, linkedin, instagram,
            youtube, technologies, country, state, city, postal_code, street,
            headcount, company_type, emails, linked_domains⟩
  | _ => .error (.pydanticValidationError "DomainSearchData")

/-- models.MetaParams. -/
structure MetaParams where
  domain : Option String := none
  company : Option String := none
  type : Option String := none
  seniority : Option String := none
  department : Option String := none
  first_name : Option String := none
  last_name : Option String := none
  full_name : Option String := none
  email : Option String := none

/-- Pydantic construction of a MetaParams from a JSON value. -/
def MetaParams.parse (j : Json) : Except PyException MetaParams := do
  match j with
  | .obj _ =>
      let domain ← fieldOptStr j "domain"
      let company ← fieldOptStr j "company"
      let type ← fieldOptStr j "type"
      let seniority ← fieldOptStr j "seniority"
      let department ← fieldOptStr j "department"
      let first_name ← fieldOptStr j "first_name"
      let last_name ← fieldOptStr j "last_name"
      let full_name ← fieldOptStr j "full_name"
      let email ← fieldOptStr j "email"
      pure ⟨domain, company, type, seniority, department, first_name,
            last_name, full_name, email⟩
  | _ => .error (.pydanticValidationError "MetaParams")

/-- models.Meta. -/
structure Meta where
  results : Option Int := none
  limit : Option Int := none
  offset : Option Int := none
  params : Option MetaParams := none

/-- Pydantic construction of a Meta from a JSON value. -/
def Meta.parse (j : Json) : Except PyException Meta := do
  match j with
  | .obj _ =>
      let results ← fieldOptInt j "results"
      let limit ← fieldOptInt j "limit"
      let offset ← fieldOptInt j "offset"
      let params ← fieldOptWith MetaParams.parse j "params"
      pure ⟨results, limit, offset, params⟩
  | _ => .error (.pydanticValidationError "Meta")

/-- models.DomainSearchResponse: exactly a data and a meta field. -/
structure DomainSearchResponse where
  data : DomainSearchData
  meta : Meta

/-- DomainSearchResponse(**response_data): keyword expansion needs a
mapping (TypeError otherwise), then pydantic validates data and meta. -/
def DomainSearchResponse.parse (j : Json) : Except PyException DomainSearchResponse := do
  match j with
  | .obj _ =>
      let data ←
        match jsonGet j "data" with
        | some v => DomainSearchData.parse v
        | none => .error (.pydanticValidationError "data")
      let meta ←
        match jsonGet j "meta" with
        | some v => Meta.parse v
        | none => .error (.pydanticValidationError "meta")
      pure ⟨data, meta⟩
  | _ => .error (.typeError "argument must be a mapping")

/-- models.EmailFinderData. -/
structure EmailFinderData where
  first_name : String
  last_name : String
  email : String
  score : Int
  domain : String
  accept_all : Bool
  position : Option String := none
  twitter : Option String := none
  linkedin_url : Option String := none
  phone_number : Option String := none
  company : Option String := none
  sources : List EmailSource := []
  verification : Option EmailVerification := none

/-- Pydantic construction of an EmailFinderData from a JSON value.  The
score field is declared int with no range constraint. -/
def EmailFinderData.parse (j : Json) : Except PyException EmailFinderData := do
  match j with
  | .obj _ =>
      let first_name ← fieldStr j "first_name"
      let last_name ← fieldStr j "last_name"
      let email ← fieldStr j "email"
      let score ← fieldInt j "score"
      let domain ← fieldStr j "domain"
      let accept_all ← fieldBool j "accept_all"
      let position ← fieldOptStr j "position"
      let twitter ← fieldOptStr j "twitter"
      let linkedin_url ← fieldOptStr j "linkedin_url"
      let phone_number ← fieldOptStr j "phone_number"
      let company ← fieldOptStr j "company"
      let sources ← fieldListWith EmailSource.parse j "sources"
      let verification ← fieldOptWith EmailVerification.parse j "verification"
      pure ⟨first_name, last_name, email, score, domain, accept_all, position,
            twitter, linkedin_url, phone_number, company, sources, verification⟩
  | _ => .error (.pydanticValidationError "EmailFinderData")

/-- models.EmailFinderResponse: exactly a data and a meta field. -/
structure EmailFinderResponse where
  data : EmailFinderData
  meta : Meta

/-- EmailFinderResponse(**response_data). -/
def EmailFinderResponse.parse (j : Json) : Except PyException EmailFinderResponse := do
  match j with
  | .obj _ =>
      let data ←
        match jsonGet j "data" with
        | some v => EmailFinderData.parse v
        | none => .error (.pydanticValidationError "data")
      let meta ←
        match jsonGet j "meta" with
        | some v => Meta.parse v
        | none => .error (.pydanticValidationError "meta")
      pure ⟨data, meta⟩
  | _ => .error (.typeError "argument must be a mapping")

/-- models.EmailVerificationData. -/
structure EmailVerificationData where
  status : String
  result : String
  score : Int
  email : String
  regexp : Bool
  gibberish : Bool
  disposable : Bool
  webmail : Bool
  mx_records : Bool
  smtp_server : Bool
  smtp_check : Bool
  accept_all : Bool
  block : Bool
  sources : List EmailSource := []

/-- Pydantic construction of an EmailVerificationData from a JSON value.
The score field is declared int with no range constraint. -/
def EmailVerificationData.parse (j : Json) : Except PyException EmailVerificationData := do
  match j with
  | .obj _ =>
      let status ← fieldStr j "status"
      let result ← fieldStr j "result"
      let score ← fieldInt j "score"
      let email ← fieldStr j "email"
      let regexp ← fieldBool j "regexp"
      let gibberish ← fieldBool j "gibberish"
      let disposable ← fieldBool j "disposable"
      let webmail ← fieldBool j "webmail"
      let mx_records ← fieldBool j "mx_records"
      let smtp_server ← fieldBool j "smtp_server"
      let smtp_check ← fieldBool j "smtp_check"
      let accept_all ← fieldBool j "accept_all"
      let block ← fieldBool j "block"
      let sources ← fieldListWith EmailSource.parse j "sources"
      pure ⟨status, result, score, email, regexp, gibberish, disposable,
            webmail, mx_records, smtp_server, smtp_check, accept_all, block,
            sources⟩
  | _ => .error (.pydanticValidationError "EmailVerificationData")

/-- models.EmailVerificationResponse: exactly a data and a meta field. -/
structure EmailVerificationResponse where
  data : EmailVerificationData
  meta : Meta

/-- EmailVerificationResponse(**response_data). -/
def EmailVerificationResponse.parse (j : Json) : Except PyException EmailVerificationResponse := do
  match j with
  | .obj _ =>
      let data ←
        match jsonGet j "data" with
        | some v => EmailVerificationData.parse v
        | none => .error (.pydanticValidationError "data")
      let meta ←
        match jsonGet j "meta" with
        | some v => Meta.parse v
        | none => .error (.pydanticValidationError "meta")
      pure ⟨data, meta⟩
  | _ => .error (.typeError "argument must be a mapping")

/-- Tail of domain_search after _make_request: a raised exception
propagates, a JSON body is handed to DomainSearchResponse. -/
def domainSearchFinish : Except PyException Json → Except PyException DomainSearchResponse
  | .error e => .error e
  | .ok response_data => DomainSearchResponse.parse response_data

/-- HunterClient.domain_search: validate that domain or company is truthy,
build the request parameters, issue the single request, parse the response.
The second component counts the requests that reached the transport. -/
def domain_search (c : HunterClient) (a : DomainSearchArgs) (net : Transport) :
    Except PyException DomainSearchResponse × Nat :=
  if !truthyS a.domain && !truthyS a.company then
    (.error (.valueError "Either domain or company must be provided"), 0)
  else
    (domainSearchFinish (_make_request c "domain-search" (domain_search_request_params a) net), 1)

/-- Tail of email_finder after _make_request. -/
def emailFinderFinish : Except PyException Json → Except PyException EmailFinderResponse
  | .error e => .error e
  | .ok response_data => EmailFinderResponse.parse response_data

/-- HunterClient.email_finder: validate the argument combination, build
the request parameters, issue the single request, parse the response. -/
def email_finder (c : HunterClient) (a : EmailFinderArgs) (net : Transport) :
    Except PyException EmailFinderResponse × Nat :=
  match _validate_email_finder_params a with
  | .error e => (.error e, 0)
  | .ok _ =>
      (emailFinderFinish (_make_request c "email-finder" (email_finder_request_params a) net), 1)

/-- Tail of email_verifier after _make_request. -/
def emailVerifierFinish : Except PyException Json → Except PyException EmailVerificationResponse
  | .error e => .error e
  | .ok response_data => EmailVerificationResponse.parse response_data

/-- HunterClient.email_verifier: require a non-empty email, issue the
single request, parse the response. -/
def email_verifier (c : HunterClient) (email : String) (net : Transport) :
    Except PyException EmailVerificationResponse × Nat :=
  if email.isEmpty then
    (.error (.valueError "Email address is required"), 0)
  else
    (emailVerifierFinish (_make_request c "email-verifier" [("email", ParamValue.str email)] net), 1)

/-! Helper lemmas about the shared response pipeline. -/

/-- A 401 response is classified as HunterAuthError. -/
theorem process_response_401 (r : HttpResponse) (h : r.status_code = 401) :
    _process_response r =
      .error (.hunterAPIError .auth (.str "Invalid API key") 401) := by
  simp [_process_response, h, HunterAPIError.new]

/-- A 429 response is classified as HunterRateLimitError. -/
theorem process_response_429 (r : HttpResponse) (h : r.status_code = 429) :
    _process_response r =
      .error (.hunterAPIError .rateLimit (.str "Rate limit exceeded") 429) := by
  simp [_process_response, h, HunterAPIError.new]

/-- On another status at least 400, _process_response raises a generic
HunterAPIError with the extracted message, when extraction returns one. -/
theorem process_response_ge400 (r : HttpResponse) (m : Json)
    (h4 : 400 ≤ r.status_code) (h1 : r.status_code ≠ 401) (h2 : r.status_code ≠ 429)
    (hm : _extract_error_message r = .ok m) :
    _process_response r =
      .error (.hunterAPIError .generic m r.status_code) := by
  simp [_process_response, h1, h2, h4, hm, HunterAPIError.new]

/-- On another status at least 400, an exception escaping message
extraction propagates unclassified. -/
theorem process_response_ge400_escape (r : HttpResponse) (e : PyException)
    (h4 : 400 ≤ r.status_code) (h1 : r.status_code ≠ 401) (h2 : r.status_code ≠ 429)
    (hm : _extract_error_message r = .error e) :
    _process_response r = .error e := by
  simp [_process_response, h1, h2, h4, hm]

/-- Below 400, _process_response just parses the JSON body. -/
theorem process_response_lt400 (r : HttpResponse) (h : r.status_code < 400) :
    _process_response r = _parse_json_response r := by
  have h1 : (r.status_code == 401) = false := by simp; omega
  have h2 : (r.status_code == 429) = false := by simp; omega
  simp [_process_response, h1, h2, Nat.not_le.mpr h]

/-- A validation-passing domain_search issues exactly one request, on the
domain-search URL with exactly the built query mapping. -/
theorem domain_search_valid_eq (c : HunterClient) (a : DomainSearchArgs)
    (net : Transport) (hv : (!truthyS a.domain && !truthyS a.company) = false) :
    domain_search c a net =
      (domainSearchFinish (_execute_request
        (net (requestUrl "domain-search") (domain_search_sent c a))), 1) := by
  simp [domain_search, hv, _make_request, domain_search_sent]

/-- A validation-passing email_finder issues exactly one request, on the
email-finder URL with exactly the built query mapping. -/
theorem email_finder_valid_eq (c : HunterClient) (a : EmailFinderArgs)
    (net : Transport) (hv : _validate_email_finder_params a = .ok ()) :
    email_finder c a net =
      (emailFinderFinish (_execute_request
        (net (requestUrl "email-finder") (email_finder_sent c a))), 1) := by
  simp [email_finder, hv, _make_request, email_finder_sent]

/-- A validation-passing email_verifier issues exactly one request, on the
email-verifier URL with exactly the built query mapping. -/
theorem email_verifier_valid_eq (c : HunterClient) (email : String)
    (net : Transport) (hv : email.isEmpty = false) :
    email_verifier c email net =
      (emailVerifierFinish (_execute_request
        (net (requestUrl "email-verifier") (email_verifier_sent c email))), 1) := by
  simp [email_verifier, hv, _make_request, email_verifier_sent]

/-! Helper lemmas about _extract_error_message. -/

/-- A malformed (unparseable) body yields the fallback message: the
ValueError from response.json() is caught. -/
theorem extract_message_malformed (s : Nat) (desc : String) :
    _extract_error_message ⟨s, .error desc⟩ = .ok (.str "API request failed") := rfl

/-- A JSON-object body without an errors key yields the fallback message. -/
theorem extract_message_no_errors_key (s : Nat) (kvs : List (String × Json))
    (h : List.lookup "errors" kvs = none) :
    _extract_error_message ⟨s, .ok (.obj kvs)⟩ = .ok (.str "API request failed") := by
  simp [_extract_error_message, pyContainsKey, h]

/-- An errors value that is not a non-empty list (falsy, or truthy but not
a list) yields the fallback message. -/
theorem extract_message_errors_not_list (s : Nat) (kvs : List (String × Json)) (v : Json)
    (h : List.lookup "errors" kvs = some v)
    (hv : (pyTruthy v && isJsonList v) = false) :
    _extract_error_message ⟨s, .ok (.obj kvs)⟩ = .ok (.str "API request failed") := by
  simp [_extract_error_message, pyContainsKey, pySubscript, h, hv]

/-- An errors[0] object without a details key yields the fallback message
(dict.get with its default). -/
theorem extract_message_no_details (s : Nat) (kvs kvs2 : List (String × Json))
    (rest : List Json)
    (h : List.lookup "errors" kvs = some (.arr (.obj kvs2 :: rest)))
    (hd : List.lookup "details" kvs2 = none) :
    _extract_error_message ⟨s, .ok (.obj kvs)⟩ = .ok (.str "API request failed") := by
  simp [_extract_error_message, pyContainsKey, pySubscript, h, hd, pyTruthy, isJsonList]

/-- An errors[0] object with a details key yields that value as message. -/
theorem extract_message_details (s : Nat) (kvs kvs2 : List (String × Json))
    (rest : List Json) (d : Json)
    (h : List.lookup "errors" kvs = some (.arr (.obj kvs2 :: rest)))
    (hd : List.lookup "details" kvs2 = some d) :
    _extract_error_message ⟨s, .ok (.obj kvs)⟩ = .ok d := by
  simp [_extract_error_message, pyContainsKey, pySubscript, h, hd, pyTruthy, isJsonList]

/-- An errors[0] that is not an object makes extraction raise an
AttributeError (only ValueError and KeyError are caught). -/
theorem extract_message_first_not_object (s : Nat) (kvs : List (String × Json))
    (first : Json) (rest : List Json)
    (h : List.lookup "errors" kvs = some (.arr (first :: rest)))
    (hf : ∀ kvs2, first ≠ .obj kvs2) :
    _extract_error_message ⟨s, .ok (.obj kvs)⟩ =
      .error (.attributeError "object has no attribute get") := by
  cases first with
  | obj kvs2 => exact absurd rfl (hf kvs2)
  | null => simp [_extract_error_message, pyContainsKey, pySubscript, h, pyTruthy, isJsonList]
  | bool b => simp [_extract_error_message, pyContainsKey, pySubscript, h, pyTruthy, isJsonList]
  | num n => simp [_extract_error_message, pyContainsKey, pySubscript, h, pyTruthy, isJsonList]
  | str t => simp [_extract_error_message, pyContainsKey, pySubscript, h, pyTruthy, isJsonList]
  | arr xs => simp [_extract_error_message, pyContainsKey, pySubscript, h, pyTruthy, isJsonList]

/-! Helper lemmas about the query-parameter builders. -/

/-- Membership in a conditional string-parameter insertion. -/
theorem mem_strParam (key k : String) (o : Option String) (v : ParamValue) :
    (k, v) ∈ strParam key o ↔
      k = key ∧ ∃ s, o = some s ∧ s.isEmpty = false ∧ v = ParamValue.str s := by
  cases o with
  | none => simp [strParam]
  | some s =>
      by_cases hs : s.isEmpty <;> simp [strParam, hs, Prod.ext_iff]

/-- Membership in a conditional int-parameter insertion. -/
theorem mem_intParam (key k : String) (o : Option Int) (v : ParamValue) :
    (k, v) ∈ intParam key o ↔
      k = key ∧ ∃ n, o = some n ∧ v = ParamValue.int n := by
  cases o with
  | none => simp [intParam]
  | some n => simp [intParam, Prod.ext_iff]

/-! Concrete objects used by witnesses. -/

/-- A concrete client. -/
def clientW : HunterClient := ⟨"test-api-key", 30⟩

/-- Concrete valid domain_search arguments. -/
def dsArgsW : DomainSearchArgs := { domain := some "example.com" }

/-- Concrete valid email_finder arguments. -/
def efArgsW : EmailFinderArgs := { domain := some "example.com", full_name := some "Alice Smith" }

/-- A transport answering every request with status 401. -/
def net401 : Transport := fun _ _ => .success ⟨401, .ok Json.null⟩

/-- A transport answering every request with status 429. -/
def net429 : Transport := fun _ _ => .success ⟨429, .ok Json.null⟩

/-- C1: a status-401 response received by any of the three operations
raises HunterAuthError carrying status_code 401 with message
"Invalid API key" (so containing "Invalid API key"), and a status-429
response raises HunterRateLimitError carrying status_code 429 with
message "Rate limit exceeded" (so containing "Rate limit exceeded");
in both cases the operation returns the error, never a Response value. -/
theorem auth_and_rate_limit_classification :
    (∀ r : HttpResponse, r.status_code = 401 →
      _process_response r = .error (.hunterAPIError .auth (.str "Invalid API key") 401) ∧
      strContains "Invalid API key" "Invalid API key") ∧
    (∀ r : HttpResponse, r.status_code = 429 →
      _process_response r = .error (.hunterAPIError .rateLimit (.str "Rate limit exceeded") 429) ∧
      strContains "Rate limit exceeded" "Rate limit exceeded") ∧
    (∀ (c : HunterClient) (a : DomainSearchArgs) (net : Transport) (r : HttpResponse),
      (!truthyS a.domain && !truthyS a.company) = false →
      net (requestUrl "domain-search") (domain_search_sent c a) = .success r →
      r.status_code = 401 →
      domain_search c a net =
        (.error (.hunterAPIError .auth (.str "Invalid API key") 401), 1)) ∧
    (∀ (c : HunterClient) (a : DomainSearchArgs) (net : Transport) (r : HttpResponse),
      (!truthyS a.domain && !truthyS a.company) = false →
      net (requestUrl "domain-search") (domain_search_sent c a) = .success r →
      r.status_code = 429 →
      domain_search c a net =
        (.error (.hunterAPIError .rateLimit (.str "Rate limit exceeded") 429), 1)) ∧
    (∀ (c : HunterClient) (a : EmailFinderArgs) (net : Transport) (r : HttpResponse),
      _validate_email_finder_params a = .ok () →
      net (requestUrl "email-finder") (email_finder_sent c a) = .success r →
      r.status_code = 401 →
      email_finder c a net =
        (.error (.hunterAPIError .auth (.str "Invalid API key") 401), 1)) ∧
    (∀ (c : HunterClient) (a : EmailFinderArgs) (net : Transport) (r : HttpResponse),
      _validate_email_finder_params a = .ok () →
      net (requestUrl "email-finder") (email_finder_sent c a) = .success r →
      r.status_code = 429 →
      email_finder c a net =
        (.error (.hunterAPIError .rateLimit (.str "Rate limit exceeded") 429), 1)) ∧
    (∀ (c : HunterClient) (email : String) (net : Transport) (r : HttpResponse),
      email.isEmpty = false →
      net (requestUrl "email-verifier") (email_verifier_sent c email) = .success r →
      r.status_code = 401 →
      email_verifier c email net =
        (.error (.hunterAPIError .auth (.str "Invalid API key") 401), 1)) ∧
    (∀ (c : HunterClient) (email : String) (net : Transport) (r : HttpResponse),
      email.isEmpty = false →
      net (requestUrl "email-verifier") (email_verifier_sent c email) = .success r →
      r.status_code = 429 →
      email_verifier c email net =
        (.error (.hunterAPIError .rateLimit (.str "Rate limit exceeded") 429), 1)) := by
  refine ⟨fun r h => ⟨process_response_401 r h, "", "", rfl⟩,
          fun r h => ⟨process_response_429 r h, "", "", rfl⟩,
          fun c a net r hv hnet hr => ?_, fun c a net r hv hnet hr => ?_,
          fun c a net r hv hnet hr => ?_, fun c a net r hv hnet hr => ?_,
          fun c em net r hv hnet hr => ?_, fun c em net r hv hnet hr => ?_⟩
  · rw [domain_search_valid_eq c a net hv, hnet]
    simp [_execute_request, process_response_401 r hr, domainSearchFinish]
  · rw [domain_search_valid_eq c a net hv, hnet]
    simp [_execute_request, process_response_429 r hr, domainSearchFinish]
  · rw [email_finder_valid_eq c a net hv, hnet]
    simp [_execute_request, process_response_401 r hr, emailFinderFinish]
  · rw [email_finder_valid_eq c a net hv, hnet]
    simp [_execute_request, process_response_429 r hr, emailFinderFinish]
  · rw [email_verifier_valid_eq c em net hv, hnet]
    simp [_execute_request, process_response_401 r hr, emailVerifierFinish]
  · rw [email_verifier_valid_eq c em net hv, hnet]
    simp [_execute_request, process_response_429 r hr, emailVerifierFinish]

/-- Witness for C1 at concrete inputs: every operation invoked against a
transport answering 401 (resp. 429) fails with the classified error. -/
theorem auth_and_rate_limit_classification_witness :
    _process_response ⟨401, .ok Json.null⟩ =
      .error (.hunterAPIError .auth (.str "Invalid API key") 401) ∧
    _process_response ⟨429, .ok Json.null⟩ =
      .error (.hunterAPIError .rateLimit (.str "Rate limit exceeded") 429) ∧
    domain_search clientW dsArgsW net401 =
      (.error (.hunterAPIError .auth (.str "Invalid API key") 401), 1) ∧
    domain_search clientW dsArgsW net429 =
      (.error (.hunterAPIError .rateLimit (.str "Rate limit exceeded") 429), 1) ∧
    email_finder clientW efArgsW net401 =
      (.error (.hunterAPIError .auth (.str "Invalid API key") 401), 1) ∧
    email_finder clientW efArgsW net429 =
      (.error (.hunterAPIError .rateLimit (.str "Rate limit exceeded") 429), 1) ∧
    email_verifier clientW "alice@example.com" net401 =
      (.error (.hunterAPIError .auth (.str "Invalid API key") 401), 1) ∧
    email_verifier clientW "alice@example.com" net429 =
      (.error (.hunterAPIError .rateLimit (.str "Rate limit exceeded") 429), 1) :=
  ⟨(auth_and_rate_limit_classification.1 ⟨401, .ok Json.null⟩ rfl).1,
   (auth_and_rate_limit_classification.2.1 ⟨429, .ok Json.null⟩ rfl).1,
   auth_and_rate_limit_classification.2.2.1 clientW dsArgsW net401 _ rfl rfl rfl,
   auth_and_rate_limit_classification.2.2.2.1 clientW dsArgsW net429 _ rfl rfl rfl,
   auth_and_rate_limit_classification.2.2.2.2.1 clientW efArgsW net401 _ rfl rfl rfl,
   auth_and_rate_limit_classification.2.2.2.2.2.1 clientW efArgsW net429 _ rfl rfl rfl,
   auth_and_rate_limit_classification.2.2.2.2.2.2.1 clientW "alice@example.com" net401 _ rfl rfl rfl,
   auth_and_rate_limit_classification.2.2.2.2.2.2.2 clientW "alice@example.com" net429 _ rfl rfl rfl⟩

/-- C3: invoking any operation with its required-argument precondition
violated (domain_search: neither domain nor company truthy; email_finder:
its validator fails; email_verifier: empty email) returns the ValueError
raised before any HTTP call: the transport call count is 0. -/
theorem validation_blocks_transport :
    (∀ (c : HunterClient) (a : DomainSearchArgs) (net : Transport),
      truthyS a.domain = false → truthyS a.company = false →
      domain_search c a net =
        (.error (.valueError "Either domain or company must be provided"), 0)) ∧
    (∀ (c : HunterClient) (a : EmailFinderArgs) (net : Transport) (e : PyException),
      _validate_email_finder_params a = .error e →
      email_finder c a net = (.error e, 0)) ∧
    (∀ (c : HunterClient) (email : String) (net : Transport),
      email.isEmpty = true →
      email_verifier c email net =
        (.error (.valueError "Email address is required"), 0)) := by
  refine ⟨fun c a net h1 h2 => ?_, fun c a net e h => ?_, fun c em net h => ?_⟩
  · simp [domain_search, h1, h2]
  · simp [email_finder, h]
  · simp [email_verifier, h]

/-- Witness for C3 at concrete inputs: all-default argument records and
the empty email produce the ValueError with zero transport calls. -/
theorem validation_blocks_transport_witness :
    domain_search clientW {} net401 =
      (.error (.valueError "Either domain or company must be provided"), 0) ∧
    email_finder clientW {} net401 =
      (.error (.valueError "Either domain or company must be provided"), 0) ∧
    email_verifier clientW "" net401 =
      (.error (.valueError "Email address is required"), 0) :=
  ⟨validation_blocks_transport.1 clientW {} net401 rfl rfl,
   validation_blocks_transport.2.1 clientW {} net401 _ rfl,
   validation_blocks_transport.2.2 clientW "" net401 rfl⟩

/-- C4: email_finder validation succeeds exactly when (domain or company
truthy) and ((first_name and last_name truthy) or full_name truthy); a
missing domain/company combination is reported by name, a missing name
combination is reported by name; in particular a call with only a domain
fails with a ValueError whose message contains
"first_name and last_name, or full_name". -/
theorem email_finder_validation_rule :
    (∀ a : EmailFinderArgs,
      _validate_email_finder_params a = .ok () ↔
        ((truthyS a.domain || truthyS a.company) &&
         ((truthyS a.first_name && truthyS a.last_name) || truthyS a.full_name)) = true) ∧
    (∀ a : EmailFinderArgs, (truthyS a.domain || truthyS a.company) = false →
      _validate_email_finder_params a =
        .error (.valueError "Either domain or company must be provided")) ∧
    (∀ a : EmailFinderArgs, (truthyS a.domain || truthyS a.company) = true →
      ((truthyS a.first_name && truthyS a.last_name) || truthyS a.full_name) = false →
      _validate_email_finder_params a =
        .error (.valueError "Either first_name and last_name, or full_name must be provided")) ∧
    (∀ (c : HunterClient) (net : Transport),
      email_finder c { domain := some "example.com" } net =
        (.error (.valueError "Either first_name and last_name, or full_name must be provided"), 0)) ∧
    strContains "Either first_name and last_name, or full_name must be provided"
      "first_name and last_name, or full_name" := by
  refine ⟨fun a => ?_, fun a h => ?_, fun a hp hq => ?_, fun c net => rfl,
          "Either ", " must be provided", rfl⟩
  · cases hd : truthyS a.domain <;> cases hc : truthyS a.company <;>
      cases hf : truthyS a.first_name <;> cases hl : truthyS a.last_name <;>
      cases hn : truthyS a.full_name <;>
      simp [_validate_email_finder_params, hd, hc, hf, hl, hn]
  · cases hd : truthyS a.domain <;> cases hc : truthyS a.company <;>
      simp_all [_validate_email_finder_params]
  · cases hd : truthyS a.domain <;> cases hc : truthyS a.company <;>
      cases hf : truthyS a.first_name <;> cases hl : truthyS a.last_name <;>
      cases hn : truthyS a.full_name <;>
      simp_all [_validate_email_finder_params]

/-- Witness for C4 at concrete inputs: empty arguments miss
domain/company, a lone domain misses the name combination. -/
theorem email_finder_validation_rule_witness :
    _validate_email_finder_params { domain := some "example.com", full_name := some "Alice Smith" } = .ok () ∧
    _validate_email_finder_params {} =
      .error (.valueError "Either domain or company must be provided") ∧
    _validate_email_finder_params { domain := some "example.com" } =
      .error (.valueError "Either first_name and last_name, or full_name must be provided") :=
  ⟨(email_finder_validation_rule.1 _).mpr rfl,
   email_finder_validation_rule.2.1 {} rfl,
   email_finder_validation_rule.2.2.1 { domain := some "example.com" } rfl rfl⟩

/-- C10: HunterAuthError and HunterRateLimitError are subtypes of
HunterAPIError (an except HunterAPIError handler catches all three
kinds), all sharing a message and a status_code that defaults to 0 when
the constructor receives only a message; argument-validation failures are
plain ValueError values outside that hierarchy (the validator's range is
ok or a ValueError), so they never reach a HunterAPIError handler while
the classified errors always do. -/
theorem exception_hierarchy :
    (∀ (k : HunterKind) (m : Json) (s : Nat),
      PyException.isHunterAPIError (.hunterAPIError k m s) = true) ∧
    (∀ (k : HunterKind) (m : Json),
      HunterAPIError.new k m none = .hunterAPIError k m 0 ∧
      (HunterAPIError.new k m none).statusCode? = some 0) ∧
    (∀ m : String, PyException.isHunterAPIError (.valueError m) = false ∧
      PyException.isValueError (.valueError m) = true) ∧
    (∀ a : EmailFinderArgs,
      _validate_email_finder_params a = .ok () ∨
      _validate_email_finder_params a =
        .error (.valueError "Either domain or company must be provided") ∨
      _validate_email_finder_params a =
        .error (.valueError "Either first_name and last_name, or full_name must be provided")) ∧
    (∀ (c : HunterClient) (a : DomainSearchArgs) (net : Transport),
      truthyS a.domain = false → truthyS a.company = false →
      ∃ msg, (domain_search c a net).1 = .error (.valueError msg) ∧
        PyException.isHunterAPIError (.valueError msg) = false) ∧
    (∀ (c : HunterClient) (net : Transport),
      (email_verifier c "" net).1 = .error (.valueError "Email address is required") ∧
      PyException.isHunterAPIError (.valueError "Email address is required") = false) := by
  refine ⟨fun k m s => rfl, fun k m => ⟨rfl, rfl⟩, fun m => ⟨rfl, rfl⟩,
          fun a => ?_, fun c a net h1 h2 => ?_, fun c net => ⟨rfl, rfl⟩⟩
  · cases hd : truthyS a.domain <;> cases hc : truthyS a.company <;>
      cases hf : truthyS a.first_name <;> cases hl : truthyS a.last_name <;>
      cases hn : truthyS a.full_name <;>
      simp [_validate_email_finder_params, hd, hc, hf, hl, hn]
  · exact ⟨"Either domain or company must be provided",
      by simp [domain_search, h1, h2], rfl⟩

/-- Witness for C10 at concrete inputs: a concrete validation failure is
a ValueError that an except HunterAPIError handler does not see. -/
theorem exception_hierarchy_witness :
    (∃ msg, (domain_search clientW {} net401).1 = .error (.valueError msg) ∧
      PyException.isHunterAPIError (.valueError msg) = false) ∧
    (_validate_email_finder_params {} = .ok () ∨
      _validate_email_finder_params ({} : EmailFinderArgs) =
        .error (.valueError "Either domain or company must be provided") ∨
      _validate_email_finder_params ({} : EmailFinderArgs) =
        .error (.valueError "Either first_name and last_name, or full_name must be provided")) :=
  ⟨exception_hierarchy.2.2.2.2.1 clientW {} net401 rfl rfl,
   exception_hierarchy.2.2.2.1 {}⟩

/-- C6: a network-level RequestException surfaces as a generic
HunterAPIError with status_code 0 whose message wraps the fault
description and contains "Request failed"; a malformed JSON body on a
status below 400 surfaces as a generic HunterAPIError with status_code 0
wrapping the parse-fault description. -/
theorem unclassified_failures_generic :
    (∀ desc : String, _execute_request (.failure desc) =
      .error (.hunterAPIError .generic (.str ("Request failed: " ++ desc)) 0)) ∧
    (∀ desc : String, strContains ("Request failed: " ++ desc) "Request failed") ∧
    (∀ (s : Nat) (desc : String), s < 400 →
      _process_response ⟨s, .error desc⟩ =
        .error (.hunterAPIError .generic (.str ("Invalid JSON response: " ++ desc)) 0)) ∧
    (∀ (c : HunterClient) (a : DomainSearchArgs) (net : Transport) (desc : String),
      (!truthyS a.domain && !truthyS a.company) = false →
      net (requestUrl "domain-search") (domain_search_sent c a) = .failure desc →
      domain_search c a net =
        (.error (.hunterAPIError .generic (.str ("Request failed: " ++ desc)) 0), 1)) := by
  refine ⟨fun desc => rfl,
          fun desc => ⟨"", ": " ++ desc, ?_⟩,
          fun s desc h => ?_,
          fun c a net desc hv hnet => ?_⟩
  · rw [String.empty_append, ← String.append_assoc]
    rfl
  · rw [process_response_lt400 ⟨s, .error desc⟩ h]
    rfl
  · rw [domain_search_valid_eq c a net hv, hnet]
    rfl

/-- Witness for C6 at concrete inputs: a transport failure and a
malformed 200-status body each produce the status-0 generic error. -/
theorem unclassified_failures_generic_witness :
    _execute_request (.failure "connection refused") =
      .error (.hunterAPIError .generic (.str "Request failed: connection refused") 0) ∧
    strContains "Request failed: connection refused" "Request failed" ∧
    _process_response ⟨200, .error "Expecting value"⟩ =
      .error (.hunterAPIError .generic (.str "Invalid JSON response: Expecting value") 0) ∧
    domain_search clientW dsArgsW (fun _ _ => .failure "connection refused") =
      (.error (.hunterAPIError .generic (.str "Request failed: connection refused") 0), 1) :=
  ⟨unclassified_failures_generic.1 "connection refused",
   unclassified_failures_generic.2.1 "connection refused",
   unclassified_failures_generic.2.2.1 200 "Expecting value" (by decide),
   unclassified_failures_generic.2.2.2 clientW dsArgsW
     (fun _ _ => .failure "connection refused") "connection refused" rfl rfl⟩

/-- C5: for every validation-passing invocation, the query mapping handed
to the transport holds exactly the present optional parameters under
their external names (type_filter is sent as type) plus api_key bound to
the configured key, and nothing else; the last three parts show each
operation hands the transport exactly that mapping on its endpoint URL. -/
theorem sent_query_mapping_exact :
    (∀ (c : HunterClient) (a : DomainSearchArgs),
      (!truthyS a.domain && !truthyS a.company) = false →
      ∀ (k : String) (v : ParamValue),
        (k, v) ∈ domain_search_sent c a ↔
          ((k = "domain" ∧ ∃ s, a.domain = some s ∧ s.isEmpty = false ∧ v = ParamValue.str s) ∨
           (k = "company" ∧ ∃ s, a.company = some s ∧ s.isEmpty = false ∧ v = ParamValue.str s) ∨
           (k = "limit" ∧ ∃ n, a.limit = some n ∧ v = ParamValue.int n) ∨
           (k = "offset" ∧ ∃ n, a.offset = some n ∧ v = ParamValue.int n) ∨
           (k = "type" ∧ ∃ s, a.type_filter = some s ∧ s.isEmpty = false ∧ v = ParamValue.str s) ∨
           (k = "seniority" ∧ ∃ s, a.seniority = some s ∧ s.isEmpty = false ∧ v = ParamValue.str s) ∨
           (k = "department" ∧ ∃ s, a.department = some s ∧ s.isEmpty = false ∧ v = ParamValue.str s) ∨
           (k = "required_field" ∧ ∃ s, a.required_field = some s ∧ s.isEmpty = false ∧ v = ParamValue.str s)) ∨
          (k = "api_key" ∧ v = ParamValue.str c.api_key)) ∧
    (∀ (c : HunterClient) (a : EmailFinderArgs),
      _validate_email_finder_params a = .ok () →
      ∀ (k : String) (v : ParamValue),
        (k, v) ∈ email_finder_sent c a ↔
          ((k = "domain" ∧ ∃ s, a.domain = some s ∧ s.isEmpty = false ∧ v = ParamValue.str s) ∨
           (k = "company" ∧ ∃ s, a.company = some s ∧ s.isEmpty = false ∧ v = ParamValue.str s) ∨
           (k = "first_name" ∧ ∃ s, a.first_name = some s ∧ s.isEmpty = false ∧ v = ParamValue.str s) ∨
           (k = "last_name" ∧ ∃ s, a.last_name = some s ∧ s.isEmpty = false ∧ v = ParamValue.str s) ∨
           (k = "full_name" ∧ ∃ s, a.full_name = some s ∧ s.isEmpty = false ∧ v = ParamValue.str s) ∨
           (k = "max_duration" ∧ ∃ n, a.max_duration = some n ∧ v = ParamValue.int n)) ∨
          (k = "api_key" ∧ v = ParamValue.str c.api_key)) ∧
    (∀ (c : HunterClient) (email : String), email.isEmpty = false →
      ∀ (k : String) (v : ParamValue),
        (k, v) ∈ email_verifier_sent c email ↔
          (k = "email" ∧ v = ParamValue.str email) ∨
          (k = "api_key" ∧ v = ParamValue.str c.api_key)) ∧
    (∀ (c : HunterClient) (a : DomainSearchArgs) (net : Transport),
      (!truthyS a.domain && !truthyS a.company) = false →
      domain_search c a net =
        (domainSearchFinish (_execute_request
          (net (requestUrl "domain-search") (domain_search_sent c a))), 1)) ∧
    (∀ (c : HunterClient) (a : EmailFinderArgs) (net : Transport),
      _validate_email_finder_params a = .ok () →
      email_finder c a net =
        (emailFinderFinish (_execute_request
          (net (requestUrl "email-finder") (email_finder_sent c a))), 1)) ∧
    (∀ (c : HunterClient) (email : String) (net : Transport),
      email.isEmpty = false →
      email_verifier c email net =
        (emailVerifierFinish (_execute_request
          (net (requestUrl "email-verifier") (email_verifier_sent c email))), 1)) := by
  refine ⟨fun c a hv k v => ?_, fun c a hv k v => ?_, fun c em hv k v => ?_,
          fun c a net hv => domain_search_valid_eq c a net hv,
          fun c a net hv => email_finder_valid_eq c a net hv,
          fun c em net hv => email_verifier_valid_eq c em net hv⟩
  · simp only [domain_search_sent, domain_search_request_params, List.mem_append,
               mem_strParam, mem_intParam, List.mem_singleton, Prod.mk.injEq, or_assoc]
  · simp only [email_finder_sent, email_finder_request_params, List.mem_append,
               mem_strParam, mem_intParam, List.mem_singleton, Prod.mk.injEq, or_assoc]
  · simp only [email_verifier_sent, List.mem_cons, List.mem_singleton,
               List.not_mem_nil, or_false, Prod.mk.injEq]

/-- Witness for C5 at concrete inputs: a present limit is sent under
limit, the api_key pair is sent, and each operation with the 401
transport hands it exactly the built mapping. -/
theorem sent_query_mapping_exact_witness :
    (("limit", ParamValue.int 10) ∈
      domain_search_sent clientW { domain := some "example.com", limit := some 10 }) ∧
    (("api_key", ParamValue.str "test-api-key") ∈
      email_verifier_sent clientW "alice@example.com") ∧
    domain_search clientW dsArgsW net401 =
      (domainSearchFinish (_execute_request
        (net401 (requestUrl "domain-search") (domain_search_sent clientW dsArgsW))), 1) ∧
    email_finder clientW efArgsW net401 =
      (emailFinderFinish (_execute_request
        (net401 (requestUrl "email-finder") (email_finder_sent clientW efArgsW))), 1) ∧
    email_verifier clientW "alice@example.com" net401 =
      (emailVerifierFinish (_execute_request
        (net401 (requestUrl "email-verifier") (email_verifier_sent clientW "alice@example.com"))), 1) :=
  ⟨(sent_query_mapping_exact.1 clientW { domain := some "example.com", limit := some 10 }
      rfl "limit" (ParamValue.int 10)).mpr
      (Or.inl (Or.inr (Or.inr (Or.inl ⟨rfl, 10, rfl, rfl⟩)))),
   (sent_query_mapping_exact.2.2.1 clientW "alice@example.com" rfl
      "api_key" (ParamValue.str "test-api-key")).mpr (Or.inr ⟨rfl, rfl⟩),
   sent_query_mapping_exact.2.2.2.1 clientW dsArgsW net401 rfl,
   sent_query_mapping_exact.2.2.2.2.1 clientW efArgsW net401 rfl,
   sent_query_mapping_exact.2.2.2.2.2 clientW "alice@example.com" net401 rfl⟩

/-- C9: presence is judged by truthiness for strings but by is-not-None
for ints: an int argument equal to 0 is inserted into the query, an
empty-string argument is never inserted, and domain_search with domain
and company both the empty string fails exactly like omitting them. -/
theorem zero_and_empty_string_presence :
    (∀ key : String, intParam key (some 0) = [(key, ParamValue.int 0)]) ∧
    (∀ key : String, strParam key (some "") = []) ∧
    (∀ (c : HunterClient) (a : DomainSearchArgs),
      a.limit = some 0 → ("limit", ParamValue.int 0) ∈ domain_search_sent c a) ∧
    (∀ (c : HunterClient) (a : DomainSearchArgs),
      a.offset = some 0 → ("offset", ParamValue.int 0) ∈ domain_search_sent c a) ∧
    (∀ (c : HunterClient) (a : EmailFinderArgs),
      a.max_duration = some 0 → ("max_duration", ParamValue.int 0) ∈ email_finder_sent c a) ∧
    (∀ (c : HunterClient) (a : DomainSearchArgs) (v : ParamValue),
      a.seniority = some "" → ("seniority", v) ∉ domain_search_sent c a) ∧
    (∀ (c : HunterClient) (a : EmailFinderArgs) (v : ParamValue),
      a.first_name = some "" → ("first_name", v) ∉ email_finder_sent c a) ∧
    (∀ (c : HunterClient) (net : Transport),
      domain_search c { domain := some "", company := some "" } net =
        domain_search c {} net ∧
      domain_search c { domain := some "", company := some "" } net =
        (.error (.valueError "Either domain or company must be provided"), 0)) := by
  refine ⟨fun key => rfl, fun key => rfl,
          fun c a h => ?_, fun c a h => ?_, fun c a h => ?_,
          fun c a v h => ?_, fun c a v h => ?_, fun c net => ⟨rfl, rfl⟩⟩ <;>
    simp [domain_search_sent, domain_search_request_params, email_finder_sent,
          email_finder_request_params, List.mem_append, mem_strParam, mem_intParam,
          Prod.mk.injEq, h]
  all_goals exact fun hfalse => absurd hfalse (by decide)

/-- Witness for C9 at concrete inputs. -/
theorem zero_and_empty_string_presence_witness :
    ("limit", ParamValue.int 0) ∈
      domain_search_sent clientW { domain := some "example.com", limit := some 0 } ∧
    ("max_duration", ParamValue.int 0) ∈
      email_finder_sent clientW
        { domain := some "example.com", full_name := some "Alice Smith", max_duration := some 0 } ∧
    (("seniority", ParamValue.str "") ∉
      domain_search_sent clientW { domain := some "example.com", seniority := some "" }) ∧
    domain_search clientW { domain := some "", company := some "" } net401 =
      (.error (.valueError "Either domain or company must be provided"), 0) :=
  ⟨zero_and_empty_string_presence.2.2.1 clientW _ rfl,
   zero_and_empty_string_presence.2.2.2.2.1 clientW _ rfl,
   zero_and_empty_string_presence.2.2.2.2.2.1 clientW _ (ParamValue.str "") rfl,
   (zero_and_empty_string_presence.2.2.2.2.2.2.2 clientW net401).2⟩

/-- C7: constructing each of the three Response Schemas from a JSON
object carrying only the required fields succeeds, with every optional
scalar field none and every list-valued field the empty list, and the
result is exactly a data/meta pair (meta itself has no required fields). -/
theorem minimal_json_yields_defaults :
    (∀ (dom : String) (b1 b2 b3 : Bool),
      DomainSearchResponse.parse (Json.obj
        [("data", Json.obj [("domain", Json.str dom), ("disposable", Json.bool b1),
                            ("webmail", Json.bool b2), ("accept_all", Json.bool b3)]),
         ("meta", Json.obj [])]) =
        .ok ⟨⟨dom, b1, b2, b3, none, none, none, none, none, none, none, none, none,
              [], none, none, none, none, none, none, none, [], []⟩,
             ⟨none, none, none, none⟩⟩) ∧
    (∀ (fn ln em dm : String) (sc : Int) (acc : Bool),
      EmailFinderResponse.parse (Json.obj
        [("data", Json.obj [("first_name", Json.str fn), ("last_name", Json.str ln),
                            ("email", Json.str em), ("score", Json.num sc),
                            ("domain", Json.str dm), ("accept_all", Json.bool acc)]),
         ("meta", Json.obj [])]) =
        .ok ⟨⟨fn, ln, em, sc, dm, acc, none, none, none, none, none, [], none⟩,
             ⟨none, none, none, none⟩⟩) ∧
    (∀ (st rs em : String) (sc : Int) (r1 r2 r3 r4 r5 r6 r7 r8 r9 : Bool),
      EmailVerificationResponse.parse (Json.obj
        [("data", Json.obj [("status", Json.str st), ("result", Json.str rs),
                            ("score", Json.num sc), ("email", Json.str em),
                            ("regexp", Json.bool r1), ("gibberish", Json.bool r2),
                            ("disposable", Json.bool r3), ("webmail", Json.bool r4),
                            ("mx_records", Json.bool r5), ("smtp_server", Json.bool r6),
                            ("smtp_check", Json.bool r7), ("accept_all", Json.bool r8),
                            ("block", Json.bool r9)]),
         ("meta", Json.obj [])]) =
        .ok ⟨⟨st, rs, sc, em, r1, r2, r3, r4, r5, r6, r7, r8, r9, []⟩,
             ⟨none, none, none, none⟩⟩) :=
  ⟨fun _ _ _ _ => rfl,
   fun _ _ _ _ _ _ => rfl,
   fun _ _ _ _ _ _ _ _ _ _ _ _ _ => rfl⟩

/-- C8 counterexample: an Email JSON object with confidence 150, outside
0 to 100, still parses into a schema-valid record (models.py declares
confidence as a plain int with no range constraint), contradicting the
claim that an out-of-range confidence does not yield a valid record. -/
theorem confidence_range_not_enforced_cex :
    Email.parse (Json.obj [("value", Json.str "alice@example.com"),
                           ("type", Json.str "personal"),
                           ("confidence", Json.num 150)]) =
      .ok ⟨"alice@example.com", "personal", 150, [], none, none, none, none,
           none, none, none, none, none⟩ ∧
    (100 : Int) < 150 :=
  ⟨rfl, by decide⟩

/-- C8 amended: the confidence field of Email and the score fields of
EmailFinderData and EmailVerificationData are plain integers; schema
parsing accepts every integer value, in range or not (the 0 to 100 range
is API documentation, not a parsing invariant). -/
theorem confidence_any_int_accepted :
    (∀ n : Int, Email.parse (Json.obj [("value", Json.str "alice@example.com"),
                                       ("type", Json.str "personal"),
                                       ("confidence", Json.num n)]) =
      .ok ⟨"alice@example.com", "personal", n, [], none, none, none, none,
           none, none, none, none, none⟩) ∧
    (∀ n : Int, EmailFinderData.parse (Json.obj
        [("first_name", Json.str "Alice"), ("last_name", Json.str "Smith"),
         ("email", Json.str "alice@example.com"), ("score", Json.num n),
         ("domain", Json.str "example.com"), ("accept_all", Json.bool false)]) =
      .ok ⟨"Alice", "Smith", "alice@example.com", n, "example.com", false,
           none, none, none, none, none, [], none⟩) ∧
    (∀ n : Int, EmailVerificationData.parse (Json.obj
        [("status", Json.str "valid"), ("result", Json.str "deliverable"),
         ("score", Json.num n), ("email", Json.str "alice@example.com"),
         ("regexp", Json.bool true), ("gibberish", Json.bool false),
         ("disposable", Json.bool false), ("webmail", Json.bool false),
         ("mx_records", Json.bool true), ("smtp_server", Json.bool true),
         ("smtp_check", Json.bool true), ("accept_all", Json.bool false),
         ("block", Json.bool false)]) =
      .ok ⟨"valid", "deliverable", n, "alice@example.com", true, false, false,
           false, true, true, true, false, false, []⟩) :=
  ⟨fun _ => rfl, fun _ => rfl, fun _ => rfl⟩

/-- C2 counterexample: at status 400 with parseable body holding
errors = [42] — an errors[0] entry without a details field, which the
claim says yields the fallback-message GenericAPIError — the code instead
escapes with an uncaught AttributeError (42 has no .get; the except
clause catches only ValueError and KeyError), so no GenericAPIError with
the fallback message is raised. -/
theorem error_message_fallback_cex :
    _process_response ⟨400, .ok (Json.obj [("errors", Json.arr [Json.num 42])])⟩ =
      .error (.attributeError "object has no attribute get") ∧
    _process_response ⟨400, .ok (Json.obj [("errors", Json.arr [Json.num 42])])⟩ ≠
      .error (.hunterAPIError .generic (.str "API request failed") 400) := by
  refine ⟨rfl, fun h => ?_⟩
  rw [show _process_response ⟨400, .ok (Json.obj [("errors", Json.arr [Json.num 42])])⟩ =
        .error (.attributeError "object has no attribute get") from rfl] at h
  simp at h

/-- C2 amended: on a status at least 400 other than 401 and 429 the
operation fails with a generic HunterAPIError carrying that status, whose
message is the errors[0].details value when the body parses to an object
whose errors value is a non-empty list with an object head carrying a
details key, and is the fallback "API request failed" for a malformed
body, an object body without an errors key, an errors value that is not a
truthy list, or an errors[0] object without details; a non-object
errors[0] instead escapes as an uncaught AttributeError.  The last part
lifts the details case to domain_search. -/
theorem error_message_extraction :
    (∀ (s : Nat) (kvs kvs2 : List (String × Json)) (rest : List Json) (d : Json),
      400 ≤ s → s ≠ 401 → s ≠ 429 →
      List.lookup "errors" kvs = some (.arr (.obj kvs2 :: rest)) →
      List.lookup "details" kvs2 = some d →
      _process_response ⟨s, .ok (.obj kvs)⟩ =
        .error (.hunterAPIError .generic d s)) ∧
    (∀ (s : Nat) (desc : String), 400 ≤ s → s ≠ 401 → s ≠ 429 →
      _process_response ⟨s, .error desc⟩ =
        .error (.hunterAPIError .generic (.str "API request failed") s)) ∧
    (∀ (s : Nat) (kvs : List (String × Json)), 400 ≤ s → s ≠ 401 → s ≠ 429 →
      List.lookup "errors" kvs = none →
      _process_response ⟨s, .ok (.obj kvs)⟩ =
        .error (.hunterAPIError .generic (.str "API request failed") s)) ∧
    (∀ (s : Nat) (kvs : List (String × Json)) (v : Json),
      400 ≤ s → s ≠ 401 → s ≠ 429 →
      List.lookup "errors" kvs = some v → (pyTruthy v && isJsonList v) = false →
      _process_response ⟨s, .ok (.obj kvs)⟩ =
        .error (.hunterAPIError .generic (.str "API request failed") s)) ∧
    (∀ (s : Nat) (kvs kvs2 : List (String × Json)) (rest : List Json),
      400 ≤ s → s ≠ 401 → s ≠ 429 →
      List.lookup "errors" kvs = some (.arr (.obj kvs2 :: rest)) →
      List.lookup "details" kvs2 = none →
      _process_response ⟨s, .ok (.obj kvs)⟩ =
        .error (.hunterAPIError .generic (.str "API request failed") s)) ∧
    (∀ (s : Nat) (kvs : List (String × Json)) (first : Json) (rest : List Json),
      400 ≤ s → s ≠ 401 → s ≠ 429 →
      List.lookup "errors" kvs = some (.arr (first :: rest)) →
      (∀ kvs2, first ≠ .obj kvs2) →
      _process_response ⟨s, .ok (.obj kvs)⟩ =
        .error (.attributeError "object has no attribute get")) ∧
    (∀ (c : HunterClient) (a : DomainSearchArgs) (net : Transport) (s : Nat)
       (kvs kvs2 : List (String × Json)) (rest : List Json) (d : Json),
      (!truthyS a.domain && !truthyS a.company) = false →
      net (requestUrl "domain-search") (domain_search_sent c a) =
        .success ⟨s, .ok (.obj kvs)⟩ →
      400 ≤ s → s ≠ 401 → s ≠ 429 →
      List.lookup "errors" kvs = some (.arr (.obj kvs2 :: rest)) →
      List.lookup "details" kvs2 = some d →
      domain_search c a net = (.error (.hunterAPIError .generic d s), 1)) := by
  refine ⟨fun s kvs kvs2 rest d h4 h1 h2 hl hd =>
            process_response_ge400 _ d h4 h1 h2 (extract_message_details s kvs kvs2 rest d hl hd),
          fun s desc h4 h1 h2 =>
            process_response_ge400 _ _ h4 h1 h2 (extract_message_malformed s desc),
          fun s kvs h4 h1 h2 hl =>
            process_response_ge400 _ _ h4 h1 h2 (extract_message_no_errors_key s kvs hl),
          fun s kvs v h4 h1 h2 hl hv =>
            process_response_ge400 _ _ h4 h1 h2 (extract_message_errors_not_list s kvs v hl hv),
          fun s kvs kvs2 rest h4 h1 h2 hl hd =>
            process_response_ge400 _ _ h4 h1 h2 (extract_message_no_details s kvs kvs2 rest hl hd),
          fun s kvs first rest h4 h1 h2 hl hf =>
            process_response_ge400_escape _ _ h4 h1 h2 (extract_message_first_not_object s kvs first rest hl hf),
          fun c a net s kvs kvs2 rest d hv hnet h4 h1 h2 hl hd => ?_⟩
  rw [domain_search_valid_eq c a net hv, hnet]
  have hm := process_response_ge400 ⟨s, .ok (.obj kvs)⟩ d h4 h1 h2
    (extract_message_details s kvs kvs2 rest d hl hd)
  simp [_execute_request, hm, domainSearchFinish]

/-- Witness for the amended C2 at concrete inputs, including the spec's
own example body for the details case and fallback cases. -/
theorem error_message_extraction_witness :
    _process_response ⟨400, .ok (Json.obj
        [("errors", Json.arr [Json.obj [("details", Json.str "Invalid domain parameter")]])])⟩ =
      .error (.hunterAPIError .generic (.str "Invalid domain parameter") 400) ∧
    _process_response ⟨500, .error "Expecting value"⟩ =
      .error (.hunterAPIError .generic (.str "API request failed") 500) ∧
    _process_response ⟨404, .ok (Json.obj [("message", Json.str "not found")])⟩ =
      .error (.hunterAPIError .generic (.str "API request failed") 404) ∧
    _process_response ⟨404, .ok (Json.obj [("errors", Json.arr [])])⟩ =
      .error (.hunterAPIError .generic (.str "API request failed") 404) ∧
    _process_response ⟨422, .ok (Json.obj [("errors", Json.arr [Json.obj [("id", Json.str "x")]])])⟩ =
      .error (.hunterAPIError .generic (.str "API request failed") 422) ∧
    domain_search clientW dsArgsW (fun _ _ => .success ⟨400, .ok (Json.obj
        [("errors", Json.arr [Json.obj [("details", Json.str "Invalid domain parameter")]])])⟩) =
      (.error (.hunterAPIError .generic (.str "Invalid domain parameter") 400), 1) :=
  ⟨error_message_extraction.1 400 _ _ [] _ (by decide) (by decide) (by decide) rfl rfl,
   error_message_extraction.2.1 500 "Expecting value" (by decide) (by decide) (by decide),
   error_message_extraction.2.2.1 404 _ (by decide) (by decide) (by decide) rfl,
   error_message_extraction.2.2.2.1 404 _ (Json.arr []) (by decide) (by decide) (by decide) rfl rfl,
   error_message_extraction.2.2.2.2.1 422 _ _ [] (by decide) (by decide) (by decide) rfl rfl,
   error_message_extraction.2.2.2.2.2.2 clientW dsArgsW _ 400 _ _ [] _ rfl rfl
     (by decide) (by decide) (by decide) rfl rfl⟩
